import Mathlib

/-!
Shallow embedding of the exam-review timer web app (`src/TimerBot.py`).

Wall-clock instants and durations are rational numbers of seconds; every
handler that calls `datetime.now()` takes the current instant `now : ℚ` as an
explicit argument.  Python `int()` truncation, float `//` and `%` are embedded
as `pyInt`, `pyFloorDiv` and `pyMod`.
-/

namespace TimerBot

/-- Python `int()` on a real value: truncation toward zero. -/
def pyInt (q : ℚ) : ℤ := if 0 ≤ q then ⌊q⌋ else ⌈q⌉

/-- Python float floor division `a // b`. -/
def pyFloorDiv (a b : ℚ) : ℚ := ((⌊a / b⌋ : ℤ) : ℚ)

/-- Python float modulo `a % b` (result has the divisor's sign). -/
def pyMod (a b : ℚ) : ℚ := a - b * ((⌊a / b⌋ : ℤ) : ℚ)

/-- Python `f"{n:02d}"`: decimal rendering, zero-padded to width 2. -/
def pad2 (n : ℤ) : String := if 0 ≤ n ∧ n < 10 then "0" ++ toString n else toString n

/-- Width-2 zero padding on naturals, used by the spec-side formatter. -/
def pad2n (n : ℕ) : String := if n < 10 then "0" ++ toString n else toString n

/-- Range table of `SUBJECT_MAP["醫學一"]` (insertion order preserved). -/
def med1_table : List ((ℤ × ℤ) × String) :=
  [((1, 31), "解剖學"), ((32, 36), "胚胎學"), ((37, 46), "組織學"),
   ((47, 73), "生理學"), ((74, 100), "生物化學")]

/-- Range table of `SUBJECT_MAP["醫學二"]` (insertion order preserved). -/
def med2_table : List ((ℤ × ℤ) × String) :=
  [((1, 17), "微生物學"), ((18, 28), "免疫學"), ((29, 35), "寄生蟲學"),
   ((36, 50), "生統與公衛"), ((51, 75), "藥理學"), ((76, 100), "病理學")]

/-- `SUBJECT_MAP`: paper type to list of inclusive ranges with subject labels. -/
def SUBJECT_MAP : List (String × List ((ℤ × ℤ) × String)) :=
  [("醫學一", med1_table), ("醫學二", med2_table)]

/-- Membership test of a question number in one range entry. -/
def inRange (e : (ℤ × ℤ) × String) (q : ℤ) : Bool :=
  decide (e.1.1 ≤ q) && decide (q ≤ e.1.2)

/-- `get_subject`: unknown paper type yields the "未知科目" sentinel, otherwise
the first matching range's label, otherwise the "題號範圍外" sentinel. -/
def get_subject (paper_type : String) (question_num : ℤ) : String :=
  match SUBJECT_MAP.lookup paper_type with
  | none => "未知科目"
  | some table =>
    match table.find? (fun e => inRange e question_num) with
    | some e => e.2
    | none => "題號範圍外"

/-- `format_time`: clamp at zero, then `int(s // 60)` minutes and
`int(s % 60)` seconds, each rendered with `f"{·:02d}"`. -/
def format_time (seconds : ℚ) : String :=
  let s := max 0 seconds
  let minutes := pyInt (pyFloorDiv s 60)
  let secs := pyInt (pyMod s 60)
  pad2 minutes ++ ":" ++ pad2 secs

/-- The spec's description of the formatter: truncate the clamped value to a
whole number of seconds, then unbounded minutes and two-digit seconds. -/
def format_time_spec (seconds : ℚ) : String :=
  let n := ⌊max 0 seconds⌋₊
  pad2n (n / 60) ++ ":" ++ pad2n (n % 60)

/-- A row appended to `st.session_state.records` by the question-form submit
handler. -/
structure QuestionRecord where
  year : String
  paper_type : String
  q_num : ℤ
  subject : String
  elapsed_sec : ℤ
  timed_out : Bool
deriving DecidableEq

/-- The `current_question` dict created by the question-form submit handler
(keys `q_num`, `start_time`, `next_notification_time`). -/
structure ActiveQuestion where
  q_num : ℤ
  start_time : ℚ
  next_notification_time : ℚ
deriving DecidableEq

/-- The timer-relevant slice of `st.session_state`.  Connectivity and identity
fields (`gsheet_client`, `logged_in_user`, `webhook_url`,
`gsheet_connection_status`, `last_question_num`, `viewing_report`) are omitted:
no modelled operation reads or writes them.  `pause_start_time` is unset in the
source until the first pause; it defaults to `0` here and is read only on paths
where the source has already assigned it. -/
structure AppState where
  records : List QuestionRecord
  current_question : Option ActiveQuestion
  is_paused : Bool
  total_paused_duration : ℚ
  pause_start_time : ℚ
  studying : Bool
  finished : Bool
  confirming_finish : Bool
  paper_type : String
  paper_type_init : String
  year : String
  initial_timeout : ℚ
  snooze_interval : ℚ
deriving DecidableEq

/-- Defaults assigned by `initialize_app_state`. -/
def init_app_state : AppState where
  records := []
  current_question := none
  is_paused := false
  total_paused_duration := 0
  pause_start_time := 0
  studying := false
  finished := false
  confirming_finish := false
  paper_type := "醫學一"
  paper_type_init := "醫學一"
  year := "114"
  initial_timeout := 120
  snooze_interval := 60

/-- `snooze(minutes)`: if a question is active, set its
`next_notification_time` to `now + timedelta(minutes=minutes)`; otherwise do
nothing. -/
def snooze (now : ℚ) (minutes : ℤ) (s : AppState) : AppState :=
  match s.current_question with
  | some q =>
    { s with
      current_question := some ({ q with next_notification_time := now + 60 * minutes }) }
  | none => s

/-- `handle_pause_resume`: when paused, fold the open pause interval into
`total_paused_duration`, shift `next_notification_time` by the same amount and
un-pause; otherwise record `pause_start_time` and pause. -/
def handle_pause_resume (now : ℚ) (s : AppState) : AppState :=
  if s.is_paused then
    let pause_duration := now - s.pause_start_time
    { s with
      total_paused_duration := s.total_paused_duration + pause_duration,
      current_question := s.current_question.map (fun q =>
        { q with next_notification_time := q.next_notification_time + pause_duration }),
      is_paused := false }
  else
    { s with pause_start_time := now, is_paused := true }

/-- The question-form submit handler: if a question is active, fold an open
pause interval, compute `duration_sec`, append the closing `QuestionRecord`;
then start the new question with a fresh deadline and a zeroed pause
accumulator. -/
def submitQuestion (now : ℚ) (q_num_input : ℤ) (s : AppState) : AppState :=
  let s' :=
    match s.current_question with
    | some q =>
      let total_paused :=
        if s.is_paused then s.total_paused_duration + (now - s.pause_start_time)
        else s.total_paused_duration
      let duration_sec := now - q.start_time - total_paused
      { s with
        total_paused_duration := total_paused,
        records := s.records ++
          [({ year := s.year, paper_type := s.paper_type, q_num := q.q_num,
              subject := get_subject s.paper_type q.q_num,
              elapsed_sec := pyInt duration_sec,
              timed_out := decide (duration_sec > s.initial_timeout) } : QuestionRecord)] }
    | none => s
  { s' with
    current_question := some
      ({ q_num := q_num_input, start_time := now,
         next_notification_time := now + s.initial_timeout } : ActiveQuestion),
    is_paused := false,
    total_paused_duration := 0 }

/-- The sidebar "完成訂正" button handler. -/
def clickFinish (s : AppState) : AppState :=
  { s with confirming_finish := true, studying := false }

/-- The "確認儲存並結束" button handler.  The spreadsheet append is external
I/O; the session state keeps `records` and `current_question` untouched. -/
def confirmSaveAndFinish (s : AppState) : AppState :=
  { s with confirming_finish := false, finished := true }

/-- Finishing a session is the two button presses in sequence. -/
def finishSession (s : AppState) : AppState :=
  confirmSaveAndFinish (clickFinish s)

/-- The "開始新一次訂正" button handler. -/
def startNewSession (s : AppState) : AppState :=
  { s with
    studying := true, finished := false, confirming_finish := false,
    records := [], current_question := none,
    paper_type := s.paper_type_init }

/-- `df['是否超時'].sum()`: the number of timed-out records. -/
def timeout_count (records : List QuestionRecord) : ℕ :=
  (records.filter (fun r => r.timed_out)).length

/-- `(timeout_count / total_count) * 100 if total_count > 0 else 0`, as
computed in `render_report_page` and the confirm-save-and-finish handler. -/
def timeout_ratio_of (records : List QuestionRecord) : ℚ :=
  if 0 < records.length then
    ((timeout_count records : ℚ) / (records.length : ℚ)) * 100
  else 0

/-- The trace startQuestion(1); pause(); resume(); startQuestion(2) from a
fresh session, with the four event instants given. -/
def pause_trace (t0 t1 t2 t3 : ℚ) : AppState :=
  submitQuestion t3 2 (handle_pause_resume t2 (handle_pause_resume t1
    (submitQuestion t0 1 (startNewSession init_app_state))))

/-- The trace startQuestion(1); pause(); resume(); startQuestion(2);
finishSession() from a fresh session, with the four event instants given. -/
def c1_run (t0 t1 t2 t3 : ℚ) : AppState :=
  finishSession (pause_trace t0 t1 t2 t3)

/-- A trace whose second event carries an earlier wall-clock instant than the
first (the wall clock stepped backwards between the two submissions). -/
def c4_run : AppState :=
  submitQuestion 50 2 (submitQuestion 100 1 (startNewSession init_app_state))

/-- A state with one open question started at t = 0 and the default deadline. -/
def open_q_state : AppState :=
  { init_app_state with current_question := some ⟨1, 0, 120⟩ }

/-- A paused state: question 3 started at t = 0, paused at t = 10. -/
def c5_state : AppState :=
  { init_app_state with
    is_paused := true,
    pause_start_time := 10,
    current_question := some ⟨3, 0, 120⟩ }

/-- A running state with question 7 open. -/
def c6_state : AppState :=
  { init_app_state with current_question := some ⟨7, 0, 120⟩ }

inductive TimerPhase where
  | idle
  | active
  | paused
deriving DecidableEq

/-- Modelled from the spec: the `notified` flag and the state polled by
`checkTimeout()` are absent from `src/TimerBot.py` (only the notifier
declaration `send_discord_notification` and the per-second rerun loop appear
there); this is the ActiveQuestion notification state of spec §3 and §4.3. -/
structure NotifierState where
  phase : TimerPhase
  notified : Bool
  next_notification_time : ℚ
  snooze_interval : ℚ
deriving DecidableEq

/-- Modelled from the spec: `checkTimeout()` is absent from `src/TimerBot.py`;
per spec §4.3 it fires only in `Active` with `notified == false` and
`now > nextNotificationTime`, and on fire sets `notified = true` and advances
the deadline by the snooze interval. -/
def checkTimeout (now : ℚ) (st : NotifierState) : Bool × NotifierState :=
  if st.phase = TimerPhase.active ∧ st.notified = false ∧ st.next_notification_time < now then
    (true, { st with notified := true, next_notification_time := now + st.snooze_interval })
  else
    (false, st)

/-- Modelled from the spec: `snooze(minutes)` on the notification state sets
`nextNotificationTime = now + minutes` and does not reset `notified`. -/
def snoozeModel (now : ℚ) (minutes : ℚ) (st : NotifierState) : NotifierState :=
  { st with next_notification_time := now + 60 * minutes }

/-- Number of notifications produced by polling `checkTimeout` at the given
sequence of instants. -/
def countFires (st : NotifierState) (ts : List ℚ) : ℕ :=
  match ts with
  | [] => 0
  | t :: rest =>
    let r := checkTimeout t st
    (if r.1 then 1 else 0) + countFires r.2 rest

/-- Two range entries overlap on no question number. -/
def rangesDisjoint (a b : (ℤ × ℤ) × String) : Prop :=
  ∀ q : ℤ, ¬ ((a.1.1 ≤ q ∧ q ≤ a.1.2) ∧ (b.1.1 ≤ q ∧ q ≤ b.1.2))

theorem pyInt_intCast (z : ℤ) : pyInt ((z : ℚ)) = z := by
  unfold pyInt
  rcases le_or_lt 0 ((z : ℚ)) with h | h
  · rw [if_pos h, Int.floor_intCast]
  · rw [if_neg (not_le.mpr h), Int.ceil_intCast]

theorem submitQuestion_records_close (s : AppState) (q : ActiveQuestion) (now : ℚ) (n : ℤ)
    (hq : s.current_question = some q) :
    (submitQuestion now n s).records =
      s.records ++
        [({ year := s.year, paper_type := s.paper_type, q_num := q.q_num,
            subject := get_subject s.paper_type q.q_num,
            elapsed_sec := pyInt (now - q.start_time -
              (if s.is_paused then s.total_paused_duration + (now - s.pause_start_time)
               else s.total_paused_duration)),
            timed_out := decide ((now - q.start_time -
              (if s.is_paused then s.total_paused_duration + (now - s.pause_start_time)
               else s.total_paused_duration)) > s.initial_timeout) } : QuestionRecord)] := by
  simp [submitQuestion, hq]

theorem pause_trace_spec (t0 t1 t2 t3 : ℚ) :
    (pause_trace t0 t1 t2 t3).records =
      [({ year := "114", paper_type := "醫學一", q_num := 1,
          subject := get_subject "醫學一" 1,
          elapsed_sec := pyInt (t3 - t0 - (t2 - t1)),
          timed_out := decide (t3 - t0 - (t2 - t1) > 120) } : QuestionRecord)] ∧
    (pause_trace t0 t1 t2 t3).current_question = some ⟨2, t3, t3 + 120⟩ := by
  constructor <;>
    simp [pause_trace, submitQuestion, handle_pause_resume, startNewSession, init_app_state]

theorem countFires_eq_zero_of_notified (st : NotifierState) (h : st.notified = true) :
    ∀ ts : List ℚ, countFires st ts = 0 := by
  intro ts
  induction ts generalizing st with
  | nil => rfl
  | cons t rest ih =>
    have hne : checkTimeout t st = (false, st) := by
      simp [checkTimeout, h]
    simp [countFires, hne, ih st h]

/-- C1 counterexample: at instants 0, 10, 20, 50 the sequence
startQuestion(1); pause(); resume(); startQuestion(2); finishSession() leaves
the record store with one record, not two: the confirm-save-and-finish handler
never closes the still-open question. -/
theorem c1_finish_counterexample :
    (c1_run 0 10 20 50).records.length = 1 ∧
    ¬ (c1_run 0 10 20 50).records.length = 2 := by
  have h1 := (pause_trace_spec 0 10 20 50).1
  constructor
  · show (pause_trace 0 10 20 50).records.length = 1
    rw [h1]; rfl
  · show ¬ (pause_trace 0 10 20 50).records.length = 2
    rw [h1]; decide

/-- C1 (amended): finishSession does not close the still-open ActiveQuestion:
for all event instants the trace leaves exactly one record, which is for
question 1, while question 2 is still the open `current_question`. -/
theorem c1_finish_leaves_one_record (t0 t1 t2 t3 : ℚ) :
    (c1_run t0 t1 t2 t3).records.length = 1 ∧
    (c1_run t0 t1 t2 t3).records.map (fun r => r.q_num) = [1] ∧
    (c1_run t0 t1 t2 t3).current_question.map (fun q => q.q_num) = some 2 := by
  have h1 := (pause_trace_spec t0 t1 t2 t3).1
  have h2 := (pause_trace_spec t0 t1 t2 t3).2
  refine ⟨?_, ?_, ?_⟩
  · show (pause_trace t0 t1 t2 t3).records.length = 1
    rw [h1]; rfl
  · show (pause_trace t0 t1 t2 t3).records.map (fun r => r.q_num) = [1]
    rw [h1]; rfl
  · show (pause_trace t0 t1 t2 t3).current_question.map (fun q => q.q_num) = some 2
    rw [h2]; rfl

/-- C2: `checkTimeout` fires exactly when the machine is Active, `notified` is
false and `now` is past the deadline; on firing it sets `notified` to true, so
an arbitrarily long polling sequence produces at most one notification. -/
theorem c2_checkTimeout_fires_once :
    (∀ (st : NotifierState) (now : ℚ),
      ((checkTimeout now st).1 = true ↔
        (st.phase = TimerPhase.active ∧ st.notified = false ∧
          st.next_notification_time < now)) ∧
      ((checkTimeout now st).1 = true → (checkTimeout now st).2.notified = true)) ∧
    (∀ (st : NotifierState) (ts : List ℚ), countFires st ts ≤ 1) := by
  constructor
  · intro st now
    constructor
    · unfold checkTimeout
      split
      · next hcond => simpa using hcond
      · next hcond => simpa using hcond
    · unfold checkTimeout
      split
      · intro _; rfl
      · intro hfalse; exact absurd hfalse (by simp)
  · intro st ts
    induction ts generalizing st with
    | nil => exact Nat.zero_le 1
    | cons t rest ih =>
      by_cases hc : st.phase = TimerPhase.active ∧ st.notified = false ∧
          st.next_notification_time < t
      · have h1 : checkTimeout t st =
            (true, { st with
                     notified := true,
                     next_notification_time := t + st.snooze_interval }) := by
          simp [checkTimeout, hc]
        have h2 := countFires_eq_zero_of_notified
          ({ st with
             notified := true,
             next_notification_time := t + st.snooze_interval }) rfl rest
        simp [countFires, h1, h2]
      · have h1 : checkTimeout t st = (false, st) := by
          simp only [checkTimeout, if_neg hc]
        simp only [countFires, h1]
        simpa using ih st

/-- Witness for C2 at a concrete overdue active state. -/
theorem c2_witness :
    (checkTimeout 11 ⟨TimerPhase.active, false, 10, 60⟩).1 = true ∧
    (checkTimeout 11 ⟨TimerPhase.active, false, 10, 60⟩).2.notified = true := by
  have h := c2_checkTimeout_fires_once.1 ⟨TimerPhase.active, false, 10, 60⟩ 11
  have hf : (checkTimeout 11 (⟨TimerPhase.active, false, 10, 60⟩ : NotifierState)).1 = true :=
    h.1.mpr ⟨rfl, rfl, by norm_num⟩
  exact ⟨hf, h.2 hf⟩

/-- C3: closing a question first folds a still-open pause interval into the
accumulator, records `elapsed = now − startTime − pauseAccumulator` truncated,
and sets `timedOut` iff that raw elapsed strictly exceeds the threshold; in
particular a 10 s pause inside a 50 s question records 40 s and no timeout. -/
theorem c3_close_elapsed_excludes_pauses :
    (∀ (s : AppState) (q : ActiveQuestion) (now : ℚ) (n : ℤ),
      s.current_question = some q →
      (submitQuestion now n s).records =
        s.records ++
          [({ year := s.year, paper_type := s.paper_type, q_num := q.q_num,
              subject := get_subject s.paper_type q.q_num,
              elapsed_sec := pyInt (now - q.start_time -
                (if s.is_paused then s.total_paused_duration + (now - s.pause_start_time)
                 else s.total_paused_duration)),
              timed_out := decide ((now - q.start_time -
                (if s.is_paused then s.total_paused_duration + (now - s.pause_start_time)
                 else s.total_paused_duration)) > s.initial_timeout) } : QuestionRecord)]) ∧
    (pause_trace 0 20 30 50).records.map (fun r => (r.q_num, r.elapsed_sec, r.timed_out)) =
      [(1, 40, false)] := by
  constructor
  · exact fun s q now n hq => submitQuestion_records_close s q now n hq
  · have h := (pause_trace_spec 0 20 30 50).1
    rw [h]
    have e1 : (50 : ℚ) - 0 - (30 - 20) = ((40 : ℤ) : ℚ) := by norm_num
    rw [e1, pyInt_intCast, decide_eq_false (by norm_num : ¬ (((40 : ℤ) : ℚ) > 120))]
    rfl

/-- Witness for C3 at a concrete one-question state closed at t = 50. -/
theorem c3_witness :
    (submitQuestion 50 2 open_q_state).records =
      open_q_state.records ++
        [({ year := open_q_state.year, paper_type := open_q_state.paper_type, q_num := 1,
            subject := get_subject open_q_state.paper_type 1,
            elapsed_sec := pyInt ((50 : ℚ) - 0 -
              (if open_q_state.is_paused
               then open_q_state.total_paused_duration + (50 - open_q_state.pause_start_time)
               else open_q_state.total_paused_duration)),
            timed_out := decide (((50 : ℚ) - 0 -
              (if open_q_state.is_paused
               then open_q_state.total_paused_duration + (50 - open_q_state.pause_start_time)
               else open_q_state.total_paused_duration)) > open_q_state.initial_timeout) }
          : QuestionRecord)] :=
  c3_close_elapsed_excludes_pauses.1 open_q_state ⟨1, 0, 120⟩ 50 2 rfl

/-- C4 counterexample: a trace in which the wall clock steps backwards between
the two submissions records `elapsedSeconds = −50`: the handler stores
`int(duration)` with no `max(0, ·)` clamp. -/
theorem c4_negative_elapsed_counterexample :
    c4_run.records.map (fun r => r.elapsed_sec) = [-50] ∧
    ¬ (∀ r ∈ c4_run.records, 0 ≤ r.elapsed_sec) := by
  have hmap : c4_run.records.map (fun r => r.elapsed_sec) = [-50] := by
    norm_num [c4_run, submitQuestion, startNewSession, init_app_state, pyInt]
    rw [show (-50 : ℚ) = ((-50 : ℤ) : ℚ) by norm_num]
    exact Int.ceil_intCast _
  refine ⟨hmap, fun hall => ?_⟩
  cases hr : c4_run.records with
  | nil => rw [hr] at hmap; simp at hmap
  | cons a tl =>
    rw [hr] at hmap
    simp only [List.map_cons, List.cons.injEq] at hmap
    have ha := hall a (by rw [hr]; exact List.mem_cons_self a tl)
    rw [hmap.1] at ha
    norm_num at ha

/-- C4 (amended): `closeQuestion` stores the truncation of the computed
elapsed duration with no clamping, so whenever that duration is non-negative
every record in the store after the close is an old record or has
`elapsedSeconds ≥ 0`. -/
theorem c4_elapsed_nonneg_without_clock_skew (s : AppState) (q : ActiveQuestion)
    (now : ℚ) (n : ℤ) (hq : s.current_question = some q)
    (hd : 0 ≤ now - q.start_time -
      (if s.is_paused then s.total_paused_duration + (now - s.pause_start_time)
       else s.total_paused_duration)) :
    ∀ r ∈ (submitQuestion now n s).records, r ∈ s.records ∨ 0 ≤ r.elapsed_sec := by
  intro r hr
  rw [submitQuestion_records_close s q now n hq] at hr
  rcases List.mem_append.mp hr with h | h
  · exact Or.inl h
  · right
    rw [List.mem_singleton.mp h]
    show 0 ≤ pyInt _
    unfold pyInt
    rw [if_pos hd]
    exact Int.floor_nonneg.mpr hd

/-- Witness for C4 (amended) at a concrete close with a forward-moving
clock. -/
theorem c4_witness :
    (⟨"114", "醫學一", 1, "解剖學", 30, false⟩ : QuestionRecord) ∈ open_q_state.records ∨
    0 ≤ (⟨"114", "醫學一", 1, "解剖學", 30, false⟩ : QuestionRecord).elapsed_sec := by
  apply c4_elapsed_nonneg_without_clock_skew open_q_state ⟨1, 0, 120⟩ 30 2 rfl
    (by norm_num [open_q_state, init_app_state])
  rw [submitQuestion_records_close open_q_state ⟨1, 0, 120⟩ 30 2 rfl]
  have e1 : (30 : ℚ) - 0 -
      (if open_q_state.is_paused
       then open_q_state.total_paused_duration + (30 - open_q_state.pause_start_time)
       else open_q_state.total_paused_duration) = ((30 : ℤ) : ℚ) := by
    norm_num [open_q_state, init_app_state]
  rw [e1, pyInt_intCast, decide_eq_false
    (by norm_num [open_q_state, init_app_state] :
      ¬ (((30 : ℤ) : ℚ) > open_q_state.initial_timeout))]
  have hsub : get_subject "醫學一" 1 = "解剖學" := by decide
  have hyr : open_q_state.year = "114" := rfl
  have hpt : open_q_state.paper_type = "醫學一" := rfl
  rw [hyr, hpt, hsub]
  exact List.mem_append_right _ (List.mem_singleton_self _)

/-- C5: resuming from Paused folds `now − pauseStartTime` into the pause
accumulator, shifts the notification deadline by the same delta, un-pauses and
changes nothing else. -/
theorem c5_resume_shifts_deadline (s : AppState) (q : ActiveQuestion) (now : ℚ)
    (hp : s.is_paused = true) (hq : s.current_question = some q) :
    handle_pause_resume now s =
      { s with
        is_paused := false,
        total_paused_duration := s.total_paused_duration + (now - s.pause_start_time),
        current_question := some ({ q with next_notification_time := q.next_notification_time + (now - s.pause_start_time) }) } := by
  simp [handle_pause_resume, hp, hq]

/-- Witness for C5 at a concrete paused state. -/
theorem c5_witness :
    (handle_pause_resume 25 c5_state).is_paused = false ∧
    (handle_pause_resume 25 c5_state).total_paused_duration = 15 ∧
    (handle_pause_resume 25 c5_state).current_question.map
      (fun q => q.next_notification_time) = some 135 := by
  have h := c5_resume_shifts_deadline c5_state ⟨3, 0, 120⟩ 25 rfl rfl
  rw [h]
  refine ⟨rfl, ?_, ?_⟩
  · show c5_state.total_paused_duration + (25 - c5_state.pause_start_time) = 15
    norm_num [c5_state, init_app_state]
  · show some _ = some _
    norm_num [c5_state, init_app_state]

/-- C6: with an active question, `snooze` sets the deadline to `now` plus the
given minutes and changes nothing else, regardless of pause state; with no
active question it is a no-op; the modelled `notified` flag is untouched. -/
theorem c6_snooze_sets_deadline_only (s : AppState) (now : ℚ) (m : ℤ) :
    (∀ q : ActiveQuestion, s.current_question = some q →
      snooze now m s =
        { s with current_question := some ({ q with next_notification_time := now + 60 * m }) }) ∧
    (s.current_question = none → snooze now m s = s) ∧
    (∀ st : NotifierState, (snoozeModel now (m : ℚ) st).notified = st.notified) := by
  refine ⟨?_, ?_, ?_⟩
  · intro q hq; simp [snooze, hq]
  · intro hq; simp [snooze, hq]
  · intro st; rfl

/-- Witness for C6: snoozing 5 minutes at t = 100 moves the deadline to 400. -/
theorem c6_witness :
    (snooze 100 5 c6_state).current_question = some ⟨7, 0, 400⟩ := by
  have h := (c6_snooze_sets_deadline_only c6_state 100 5).1 ⟨7, 0, 120⟩ rfl
  rw [h]
  show some _ = _
  norm_num

/-- C9: the session aggregate's ratio is `100 * timeouts / total` on a
non-empty record store and `0` on an empty one, with no division fault. -/
theorem c9_timeout_ratio_total :
    (∀ records : List QuestionRecord, records ≠ [] →
      timeout_ratio_of records =
        100 * (timeout_count records : ℚ) / (records.length : ℚ)) ∧
    timeout_ratio_of [] = 0 := by
  constructor
  · intro l h
    have hl : 0 < l.length := List.length_pos.mpr h
    simp only [timeout_ratio_of, if_pos hl]
    ring
  · rfl

/-- Witness for C9 on a one-record store. -/
theorem c9_witness :
    timeout_ratio_of [⟨"114", "醫學一", 1, "解剖學", 30, true⟩] =
      100 * (timeout_count [⟨"114", "醫學一", 1, "解剖學", 30, true⟩] : ℚ) /
        ((List.length [(⟨"114", "醫學一", 1, "解剖學", 30, true⟩ : QuestionRecord)] : ℕ) : ℚ) :=
  c9_timeout_ratio_total.1 _ (by decide)

theorem find_first_of_disjoint (tbl : List ((ℤ × ℤ) × String)) (e : (ℤ × ℤ) × String)
    (q : ℤ) (hd : tbl.Pairwise rangesDisjoint) (he : e ∈ tbl)
    (h1 : e.1.1 ≤ q) (h2 : q ≤ e.1.2) :
    tbl.find? (fun x => inRange x q) = some e := by
  induction tbl with
  | nil => cases he
  | cons a rest ih =>
    rcases List.mem_cons.mp he with rfl | hmem
    · exact List.find?_cons_of_pos rest (by simp [inRange, h1, h2])
    · have hdis : rangesDisjoint a e := (List.pairwise_cons.mp hd).1 e hmem
      have hfa : ¬ (inRange a q = true) := by
        simp only [inRange, Bool.and_eq_true, decide_eq_true_eq]
        rintro ⟨ha1, ha2⟩
        exact hdis q ⟨⟨ha1, ha2⟩, ⟨h1, h2⟩⟩
      rw [List.find?_cons_of_neg rest hfa]
      exact ih (List.pairwise_cons.mp hd).2 hmem

theorem lookup_subject_map (pt : String) (tbl : List ((ℤ × ℤ) × String))
    (h : SUBJECT_MAP.lookup pt = some tbl) : tbl = med1_table ∨ tbl = med2_table := by
  simp only [SUBJECT_MAP, List.lookup] at h
  split at h
  · exact Or.inl (Option.some_injective _ h).symm
  · split at h
    · exact Or.inr (Option.some_injective _ h).symm
    · cases h

theorem med1_disjoint : med1_table.Pairwise rangesDisjoint := by
  have h : med1_table.Pairwise (fun a b => a.1.2 < b.1.1 ∨ b.1.2 < a.1.1) := by decide
  refine h.imp ?_
  intro a b hab q hq
  rcases hq with ⟨⟨p1, p2⟩, p3, p4⟩
  rcases hab with h' | h' <;> omega

theorem med2_disjoint : med2_table.Pairwise rangesDisjoint := by
  have h : med2_table.Pairwise (fun a b => a.1.2 < b.1.1 ∨ b.1.2 < a.1.1) := by decide
  refine h.imp ?_
  intro a b hab q hq
  rcases hq with ⟨⟨p1, p2⟩, p3, p4⟩
  rcases hab with h' | h' <;> omega

theorem subject_table_disjoint (pt : String) (tbl : List ((ℤ × ℤ) × String))
    (h : SUBJECT_MAP.lookup pt = some tbl) : tbl.Pairwise rangesDisjoint := by
  rcases lookup_subject_map pt tbl h with rfl | rfl
  · exact med1_disjoint
  · exact med2_disjoint

/-- C7: the subject resolver is total with sentinel outputs — unknown paper
type yields the "未知科目" sentinel, a matching range yields its (unique,
hence first) label, no matching range yields the "題號範圍外" sentinel — and
the ranges configured for each paper type are pairwise disjoint, so at most one
range matches any question number. -/
theorem c7_resolver_total_disjoint :
    (∀ (pt : String) (q : ℤ),
      SUBJECT_MAP.lookup pt = none → get_subject pt q = "未知科目") ∧
    (∀ (pt : String) (tbl : List ((ℤ × ℤ) × String)),
      SUBJECT_MAP.lookup pt = some tbl → tbl.Pairwise rangesDisjoint) ∧
    (∀ (pt : String) (tbl : List ((ℤ × ℤ) × String)) (e : (ℤ × ℤ) × String) (q : ℤ),
      SUBJECT_MAP.lookup pt = some tbl → e ∈ tbl → e.1.1 ≤ q → q ≤ e.1.2 →
      get_subject pt q = e.2) ∧
    (∀ (pt : String) (tbl : List ((ℤ × ℤ) × String)) (q : ℤ),
      SUBJECT_MAP.lookup pt = some tbl → (∀ e ∈ tbl, ¬ (e.1.1 ≤ q ∧ q ≤ e.1.2)) →
      get_subject pt q = "題號範圍外") := by
  refine ⟨?_, ?_, ?_, ?_⟩
  · intro pt q h
    unfold get_subject
    rw [h]
  · exact subject_table_disjoint
  · intro pt tbl e q hl he h1 h2
    have hf := find_first_of_disjoint tbl e q (subject_table_disjoint pt tbl hl) he h1 h2
    simp only [get_subject, hl, hf]
  · intro pt tbl q hl hnone
    have hf : tbl.find? (fun e => inRange e q) = none := by
      refine List.find?_eq_none.mpr ?_
      intro e he
      simp only [inRange, Bool.and_eq_true, decide_eq_true_eq, not_and]
      intro ha hb
      exact hnone e he ⟨ha, hb⟩
    simp only [get_subject, hl, hf]

/-- Witness for C7: an unknown paper type, an in-range lookup and an
out-of-range lookup, each at concrete inputs. -/
theorem c7_witness :
    get_subject "物理" 5 = "未知科目" ∧
    get_subject "醫學一" 35 = "胚胎學" ∧
    get_subject "醫學一" 200 = "題號範圍外" :=
  ⟨c7_resolver_total_disjoint.1 "物理" 5 (by decide),
   c7_resolver_total_disjoint.2.2.1 "醫學一" med1_table ((32, 36), "胚胎學") 35
     (by decide) (by decide) (by decide) (by decide),
   c7_resolver_total_disjoint.2.2.2 "醫學一" med1_table 200 (by decide) (by decide)⟩

theorem toString_int_natCast (n : ℕ) : toString ((n : ℤ)) = toString n := rfl

theorem pad2_natCast (n : ℕ) : pad2 ((n : ℤ)) = pad2n n := by
  unfold pad2 pad2n
  rcases lt_or_ge n 10 with h | h
  · rw [if_pos ⟨Int.natCast_nonneg n, by exact_mod_cast h⟩, if_pos h, toString_int_natCast]
  · rw [if_neg ?_, if_neg (not_lt.mpr h), toString_int_natCast]
    rintro ⟨-, hlt⟩
    exact absurd (by exact_mod_cast hlt : n < 10) (not_lt.mpr h)

theorem floor_div60 (t : ℚ) (ht : 0 ≤ t) : ⌊t / 60⌋ = ((⌊t⌋₊ / 60 : ℕ) : ℤ) := by
  have h60 : (0 : ℚ) ≤ t / 60 := by positivity
  have hfl : 0 ≤ ⌊t / 60⌋ := Int.floor_nonneg.mpr h60
  rw [← Int.toNat_of_nonneg hfl, Int.floor_toNat]
  norm_cast
  calc ⌊t / 60⌋₊ = ⌊t / ((60 : ℕ) : ℚ)⌋₊ := by norm_num
    _ = ⌊t⌋₊ / 60 := Nat.floor_div_nat t 60

theorem format_time_eq_spec (s : ℚ) : format_time s = format_time_spec s := by
  simp only [format_time, format_time_spec]
  set t := max 0 s with htdef
  have ht0 : (0 : ℚ) ≤ t := le_max_left 0 s
  have hm : pyInt (pyFloorDiv t 60) = ((⌊t⌋₊ / 60 : ℕ) : ℤ) := by
    unfold pyInt pyFloorDiv
    rw [if_pos (by exact_mod_cast Int.floor_nonneg.mpr (by positivity : (0 : ℚ) ≤ t / 60)),
      Int.floor_intCast]
    exact floor_div60 t ht0
  have hs2 : pyInt (pyMod t 60) = ((⌊t⌋₊ % 60 : ℕ) : ℤ) := by
    unfold pyInt pyMod
    have hle : ((⌊t / 60⌋ : ℤ) : ℚ) ≤ t / 60 := Int.floor_le _
    have hmul : (60 : ℚ) * ((⌊t / 60⌋ : ℤ) : ℚ) ≤ t := by
      have h2 : (60 : ℚ) * (t / 60) = t := by ring
      nlinarith [hle]
    rw [if_pos (by linarith)]
    have hcast : t - 60 * ((⌊t / 60⌋ : ℤ) : ℚ) = t - (((60 * ⌊t / 60⌋ : ℤ)) : ℚ) := by
      push_cast
      ring
    rw [hcast, Int.floor_sub_int]
    have e1 : ⌊t⌋ = ((⌊t⌋₊ : ℕ) : ℤ) := by
      rw [← Int.toNat_of_nonneg (Int.floor_nonneg.mpr ht0), Int.floor_toNat]
    rw [e1, floor_div60 t ht0]
    omega
  rw [hm, hs2, pad2_natCast, pad2_natCast]

/-- C8: the formatter agrees with the spec's description — clamp at zero, then
truncate and render unbounded minutes and two-digit seconds — and on the spec's
example inputs produces `"00:00"`, `"02:05"` (truncated, not rounded) and
unwrapped minutes `"62:03"`. -/
theorem c8_format_time_correct :
    (∀ s : ℚ, format_time s = format_time_spec s) ∧
    format_time (-5) = "00:00" ∧ format_time 0 = "00:00" ∧
    format_time (125.9 : ℚ) = "02:05" ∧ format_time 3723 = "62:03" := by
  refine ⟨format_time_eq_spec, ?_, ?_, ?_, ?_⟩
  · rw [format_time_eq_spec]
    have h : ⌊max (0 : ℚ) (-5)⌋₊ = 0 := by
      rw [max_eq_left (by norm_num : (-5 : ℚ) ≤ 0)]
      norm_num
    simp only [format_time_spec, h]
    decide
  · rw [format_time_eq_spec]
    have h : ⌊max (0 : ℚ) 0⌋₊ = 0 := by
      rw [max_self]
      norm_num
    simp only [format_time_spec, h]
    decide
  · rw [format_time_eq_spec]
    have h : ⌊max (0 : ℚ) (125.9 : ℚ)⌋₊ = 125 := by
      rw [max_eq_right (by norm_num : (0 : ℚ) ≤ (125.9 : ℚ)),
        Nat.floor_eq_iff (by norm_num)]
      norm_num
    simp only [format_time_spec, h]
    decide
  · rw [format_time_eq_spec]
    have h : ⌊max (0 : ℚ) 3723⌋₊ = 3723 := by
      rw [max_eq_right (by norm_num : (0 : ℚ) ≤ (3723 : ℚ))]
      norm_num
    simp only [format_time_spec, h]
    decide

/-- C10: for both configured paper types and every question number in 1..100,
`get_subject` returns a genuine subject label and never a sentinel — the two
range tables exactly cover 1..100. -/
theorem c10_full_coverage (q : ℤ) (h1 : 1 ≤ q) (h2 : q ≤ 100) :
    (get_subject "醫學一" q ∈ ["解剖學", "胚胎學", "組織學", "生理學", "生物化學"] ∧
     get_subject "醫學一" q ≠ "題號範圍外" ∧ get_subject "醫學一" q ≠ "未知科目") ∧
    (get_subject "醫學二" q ∈ ["微生物學", "免疫學", "寄生蟲學", "生統與公衛", "藥理學", "病理學"] ∧
     get_subject "醫學二" q ≠ "題號範圍外" ∧ get_subject "醫學二" q ≠ "未知科目") := by
  interval_cases q <;> exact ⟨by decide, by decide⟩

/-- Witness for C10 at question number 50. -/
theorem c10_witness :
    (get_subject "醫學一" 50 ∈ ["解剖學", "胚胎學", "組織學", "生理學", "生物化學"] ∧
     get_subject "醫學一" 50 ≠ "題號範圍外" ∧ get_subject "醫學一" 50 ≠ "未知科目") ∧
    (get_subject "醫學二" 50 ∈ ["微生物學", "免疫學", "寄生蟲學", "生統與公衛", "藥理學", "病理學"] ∧
     get_subject "醫學二" 50 ≠ "題號範圍外" ∧ get_subject "醫學二" 50 ≠ "未知科目") :=
  c10_full_coverage 50 (by norm_num) (by norm_num)

end TimerBot
